import Mathlib

/-!
Verification of the nvprime daemon core (Rust sources under `src/`):
the daemon state and tuning lifecycle (`src/service/daemon.rs`), the
AMD EPP manager (`src/service/ryzen.rs`), the zbus RPC service
(`src/common/ipc.rs`), the IPC protocol wrapper (`src/ipc/protocol.rs`)
and the privilege bootstrap (`src/service/privilege.rs`).

External effects (NVML GPU calls, the sysfs file system, `setpriority`,
process environment, `exec`) are modelled as explicit environments:
an operation returns its new `DaemonState`, the list of adapter calls it
performed, and its `Result`.  The lock-protected critical sections of the
Rust code become single atomic Lean functions on `DaemonState`.
-/

namespace NvPrime

/-- Valid AMD EPP profiles (`ryzen.rs`, `enum EppProfile`). -/
inductive EppProfile where
  | performance
  | balancePerformance
  | default
  | balancePower
  | power
deriving DecidableEq

/-- ASCII lower-casing of one character, as `str::to_lowercase` acts on the
ASCII profile names compared in `ryzen.rs`. -/
def asciiToLower (c : Char) : Char :=
  if 'A' ≤ c ∧ c ≤ 'Z' then Char.ofNat (c.toNat + 32) else c

/-- ASCII lower-casing of a string. -/
def strToLower (s : String) : String := ⟨s.data.map asciiToLower⟩

/-- `EppProfile::from_str` (`ryzen.rs`): case-insensitive parse of a profile name. -/
def EppProfile.fromString (s : String) : Option EppProfile :=
  match strToLower s with
  | "performance" => some .performance
  | "balance_performance" => some .balancePerformance
  | "default" => some .default
  | "balance_power" => some .balancePower
  | "power" => some .power
  | _ => none

/-- `EppProfile::as_str` (`ryzen.rs`). -/
def EppProfile.asStr : EppProfile → String
  | .performance => "performance"
  | .balancePerformance => "balance_performance"
  | .default => "default"
  | .balancePower => "balance_power"
  | .power => "power"

/-- The slice of the file system `RyzenEPPManager::set_epp` touches:
whether `/sys/devices/system/cpu` exists, the entries `read_dir` yields
(`none` models a `read_dir` error), which entries have an
`cpufreq/energy_performance_preference` file, and which writes succeed. -/
structure FsEnv where
  cpuDirExists : Bool
  readDirEntries : Option (List String)
  eppFileExists : String → Bool
  writeSucceeds : String → Bool

/-- The `file_name.starts_with("cpu") && rest-all-ascii-digits` filter of
`set_epp` (`ryzen.rs` lines 82-84). -/
def isCpuCoreEntry (name : String) : Bool :=
  name.startsWith "cpu" && (name.drop 3).toList.all (fun ch => ch.isDigit)

/-- Outcome of one `RyzenEPPManager::set_epp` call: the returned `Result`,
the entries whose EPP file a write was attempted on, and the two counters. -/
structure EppOutcome where
  result : Except String Unit
  attempted : List String
  successCount : Nat
  failCount : Nat

/-- `RyzenEPPManager::set_epp` (`ryzen.rs` lines 49-107): an invalid profile
is logged and ignored, a missing cpu directory or failing `read_dir` is
skipped, per-core write failures only bump `fail_count`; every path
returns `Ok(())`. -/
def set_epp (env : FsEnv) (mode : String) : EppOutcome :=
  match EppProfile.fromString mode with
  | none => ⟨Except.ok (), [], 0, 0⟩
  | some _ =>
    if !env.cpuDirExists then ⟨Except.ok (), [], 0, 0⟩
    else
      match env.readDirEntries with
      | none => ⟨Except.ok (), [], 0, 0⟩
      | some entries =>
        let targets := entries.filter (fun n => isCpuCoreEntry n && env.eppFileExists n)
        ⟨Except.ok (), targets,
          (targets.filter (fun n => env.writeSucceeds n)).length,
          (targets.filter (fun n => !env.writeSucceeds n)).length⟩

/-- `CpuTune` config section (`config.rs`). -/
structure CpuTune where
  enabled : Bool
  amd_epp_tune : String
  amd_epp_base : String
deriving DecidableEq

/-- `GpuTune` config section (`config.rs`). -/
structure GpuTune where
  enabled : Bool
  gpu_name : Option String
  gpu_uuid : Option String
  gpu_vlk_icd : String
  set_max_pwr : Bool
  pwr_limit_tune : Option Nat
deriving DecidableEq

/-- `SysTune` config section (`config.rs`). -/
structure SysTune where
  enabled : Bool
  proc_ioprio : Int
  proc_renice : Int
  splitlock_hack : Bool
  watchdog_interval_sec : Nat
deriving DecidableEq

/-- `TuningConfig` (`common/ipc.rs`): the `{cpu, gpu, sys}` blob a client sends. -/
structure TuningConfig where
  cpu : CpuTune
  gpu : GpuTune
  sys : SysTune
deriving DecidableEq

/-- The `NvGpu` handle is an externally-owned NVML session; its contents are
irrelevant to the daemon-state logic, only its presence matters. -/
def NvGpuHandle : Type := Unit

/-- `DaemonState` (`daemon.rs` lines 12-17). `active_pids` is a `HashSet<u32>`,
modelled as a `Finset ℕ`. -/
structure DaemonState where
  gpu : Option NvGpuHandle
  active_pids : Finset Nat
  baseline_power_limit : Option Nat
  baseline_epp : Option String

/-- One call into a hardware adapter, as observed at the daemon-state layer. -/
inductive AdapterCall where
  | gpuSetPowerLimit (pwr_limit : Option Nat) (set_max : Bool)
  | gpuRestoreDefaults
  | cpuSetEpp (mode : String)
  | setPriority (pid : Nat) (renice : Int)
deriving DecidableEq

/-- Responses of the external hardware/OS to adapter calls: the file system
seen by `set_epp`, whether `NvGpu::set_power_limit` and
`NvGpu::restore_defaults` succeed, and the return code of
`libc::setpriority`. -/
structure HwEnv where
  fs : FsEnv
  gpuSetPowerOk : Bool
  gpuRestoreOk : Bool
  setPriorityRet : Int

/-- Result of one state-mutating daemon operation. -/
structure OpResult where
  state : DaemonState
  calls : List AdapterCall
  result : Except String Unit

/-- `DaemonState::apply_cpu_tuning` (`daemon.rs` lines 54-68): skip when
disabled; capture `baseline_epp` from the request's `amd_epp_base` when not
yet captured; then call `RyzenEPPManager::set_epp` with `amd_epp_tune`. -/
def DaemonState.apply_cpu_tuning (env : HwEnv) (s : DaemonState) (cpu_config : CpuTune) :
    OpResult :=
  if !cpu_config.enabled then ⟨s, [], Except.ok ()⟩
  else
    let s1 := if s.baseline_epp.isNone then
        { s with baseline_epp := some cpu_config.amd_epp_base } else s
    ⟨s1, [AdapterCall.cpuSetEpp cpu_config.amd_epp_tune],
      (set_epp env.fs cpu_config.amd_epp_tune).result⟩

/-- `DaemonState::apply_gpu_tuning` (`daemon.rs` lines 70-83): skip when
disabled; error when the GPU handle is absent; otherwise one
`set_power_limit` adapter call whose success is the hardware's to decide. -/
def DaemonState.apply_gpu_tuning (env : HwEnv) (s : DaemonState) (gpu_config : GpuTune) :
    OpResult :=
  if !gpu_config.enabled then ⟨s, [], Except.ok ()⟩
  else
    match s.gpu with
    | none => ⟨s, [], Except.error "GPU not initialized"⟩
    | some _ =>
      ⟨s, [AdapterCall.gpuSetPowerLimit gpu_config.pwr_limit_tune gpu_config.set_max_pwr],
        if env.gpuSetPowerOk then Except.ok () else Except.error "Failed to set power limit"⟩

/-- `DaemonState::apply_process_priority` (`daemon.rs` lines 85-104): skip when
disabled or when `proc_renice` is 0; otherwise one `setpriority` call which
fails iff the OS returns a nonzero code. -/
def DaemonState.apply_process_priority (env : HwEnv) (pid : Nat) (sys_config : SysTune) :
    List AdapterCall × Except String Unit :=
  if !sys_config.enabled then ([], Except.ok ())
  else if sys_config.proc_renice ≠ 0 then
    ([AdapterCall.setPriority pid sys_config.proc_renice],
      if env.setPriorityRet ≠ 0 then
        Except.error ("setpriority failed with code " ++ toString env.setPriorityRet)
      else Except.ok ())
  else ([], Except.ok ())

/-- `DaemonState::restore_gpu_defaults` (`daemon.rs` lines 106-113): a no-op
without a GPU handle, otherwise one `restore_defaults` adapter call. -/
def DaemonState.restore_gpu_defaults (env : HwEnv) (s : DaemonState) :
    List AdapterCall × Except String Unit :=
  match s.gpu with
  | some _ =>
    ([AdapterCall.gpuRestoreDefaults],
      if env.gpuRestoreOk then Except.ok ()
      else Except.error "Failed to restore GPU defaults")
  | none => ([], Except.ok ())

/-- `DaemonState::restore_cpu_defaults` (`daemon.rs` lines 115-121): a no-op
without a recorded baseline EPP, otherwise one `set_epp` call with it. -/
def DaemonState.restore_cpu_defaults (env : HwEnv) (s : DaemonState) :
    List AdapterCall × Except String Unit :=
  match s.baseline_epp with
  | some base_epp => ([AdapterCall.cpuSetEpp base_epp], (set_epp env.fs base_epp).result)
  | none => ([], Except.ok ())

/-- `DaemonState::add_active_pid` (`daemon.rs` line 123-125). -/
def DaemonState.add_active_pid (s : DaemonState) (pid : Nat) : DaemonState :=
  { s with active_pids := insert pid s.active_pids }

/-- `DaemonState::remove_active_pid` (`daemon.rs` line 127-129). -/
def DaemonState.remove_active_pid (s : DaemonState) (pid : Nat) : DaemonState :=
  { s with active_pids := s.active_pids.erase pid }

/-- `Except.isOk` specialised to daemon results. -/
def resOk : Except String Unit → Bool
  | Except.ok _ => true
  | Except.error _ => false

/-- `NvPrimeService::reset_tuning` (`common/ipc.rs` lines 63-89): under the
state lock, attempt the GPU restore, then the CPU restore (regardless of the
first outcome), aggregate success, unconditionally clear `active_pids`, and
only then report failure if any restore step failed. -/
def reset_tuning (env : HwEnv) (s : DaemonState) : OpResult :=
  let rg := s.restore_gpu_defaults env
  let rc := s.restore_cpu_defaults env
  { state := { s with active_pids := ∅ },
    calls := rg.1 ++ rc.1,
    result :=
      if resOk rg.2 && resOk rc.2 then Except.ok ()
      else Except.error "Failed to fully reset tuning" }

/-- `NvPrimeService::apply_tuning` (`common/ipc.rs` lines 19-61). `parse`
models `serde_json::from_str` over the external config blob. A parse error
returns before any state is touched; a CPU-tuning error is logged and
swallowed; a GPU or priority error is returned and the pid is not recorded;
on success the pid is recorded and (second component) a watchdog task is
started for it. -/
def apply_tuning (env : HwEnv) (parse : String → Except String TuningConfig)
    (s : DaemonState) (pid : Nat) (config_json : String) : OpResult × Bool :=
  match parse config_json with
  | Except.error e => (⟨s, [], Except.error ("Invalid config JSON: " ++ e)⟩, false)
  | Except.ok config =>
    let rCpu := s.apply_cpu_tuning env config.cpu
    let rGpu := rCpu.state.apply_gpu_tuning env config.gpu
    match rGpu.result with
    | Except.error e =>
      (⟨rGpu.state, rCpu.calls ++ rGpu.calls, Except.error ("GPU tuning failed: " ++ e)⟩, false)
    | Except.ok _ =>
      let rSys := DaemonState.apply_process_priority env pid config.sys
      match rSys.2 with
      | Except.error e =>
        (⟨rGpu.state, rCpu.calls ++ rGpu.calls ++ rSys.1,
          Except.error ("Process priority failed: " ++ e)⟩, false)
      | Except.ok _ =>
        (⟨rGpu.state.add_active_pid pid, rCpu.calls ++ rGpu.calls ++ rSys.1, Except.ok ()⟩, true)

/-- Result of the watchdog's death-cleanup critical section. `ran` records
whether the conditional restore branch was taken. -/
structure CleanupResult where
  state : DaemonState
  calls : List AdapterCall
  ran : Bool

/-- The critical section `start_pid_watchdog` runs when its tracked pid has
died (`daemon.rs` lines 144-154): under one lock acquisition, remove the pid,
and iff `active_pids` is then empty, run the GPU and CPU restores (errors
logged, not propagated). -/
def watchdog_cleanup (env : HwEnv) (s : DaemonState) (pid : Nat) : CleanupResult :=
  let s1 := s.remove_active_pid pid
  if s1.active_pids = ∅ then
    let rg := s1.restore_gpu_defaults env
    let rc := s1.restore_cpu_defaults env
    ⟨s1, rg.1 ++ rc.1, true⟩
  else ⟨s1, [], false⟩

/-- `Command` (`ipc/protocol.rs` lines 5-13). -/
inductive Command where
  | applyTuning (cmd : String) (pid : Nat)
  | resetTuning
  | status
deriving DecidableEq

/-- `Request` wrapper (`ipc/protocol.rs` lines 57-62): a command plus a
protocol version byte reserved for future compatibility. -/
structure Request where
  version : Nat
  command : Command
deriving DecidableEq

/-- `Request::CURRENT_VERSION` (`ipc/protocol.rs` line 65). -/
def Request.CURRENT_VERSION : Nat := 1

/-- `Request::new` (`ipc/protocol.rs` lines 67-72): always stamps the single
known version. -/
def Request.new (command : Command) : Request :=
  ⟨Request.CURRENT_VERSION, command⟩

/-- The wire surface of the zbus service (`common/ipc.rs` lines 17-94):
exactly the parameters each `#[interface]` method receives. -/
inductive ServiceCall where
  | applyTuning (pid : Nat) (config_json : String)
  | resetTuning
  | ping
deriving DecidableEq

/-- The protocol version a wire call of the zbus interface carries. The
method signatures in `common/ipc.rs` are `apply_tuning(pid, config_json)`,
`reset_tuning()` and `ping()`: none has a version parameter, so no call
carries one. -/
def ServiceCall.wireVersion : ServiceCall → Option Nat := fun _ => none

/-- Dispatch of the zbus service (`common/ipc.rs`): `ping` answers without
touching state; the other two methods run the handlers above. The `Bool`
records whether a watchdog task was started. -/
def handleCall (env : HwEnv) (parse : String → Except String TuningConfig)
    (s : DaemonState) : ServiceCall → OpResult × Bool
  | ServiceCall.applyTuning pid json => apply_tuning env parse s pid json
  | ServiceCall.resetTuning => (reset_tuning env s, false)
  | ServiceCall.ping => (⟨s, [], Except.ok ()⟩, false)

/-- The process-level facts `Privilege::try_elevate` reads and writes
(`privilege.rs`): effective uid, the environment variables, the current
binary and its arguments, and whether `exec`ing `pkexec` succeeds
(replacing the process image). -/
structure ProcEnv where
  euid : Nat
  vars : String → Option String
  current_exe : String
  args : List String
  execOk : Bool

/-- How a `try_elevate` call ends: either the process image was replaced by
`exec`, or the function returned a boolean to its caller. -/
inductive ElevateOutcome where
  | replaced (prog : String) (argv : List String)
  | returned (value : Bool)
deriving DecidableEq

/-- `env::set_var`. -/
def setVar (vars : String → Option String) (key value : String) :
    String → Option String :=
  fun k => if k = key then some value else vars k

/-- `Privilege::is_root` (`privilege.rs` lines 44-46). -/
def is_root (env : ProcEnv) : Bool := env.euid = 0

/-- `Privilege::try_elevate` (`privilege.rs` lines 11-41): immediately true
when root; false without re-exec when the one-shot `PRIME_RS_ELEVATED`
marker is present; otherwise save `HOME` into `ORIGINAL_HOME` (when set),
set the marker, and `exec` `pkexec` with the current binary and identical
arguments — returning false when the exec fails to start. Returns the
outcome and the final environment variables. -/
def try_elevate (env : ProcEnv) : ElevateOutcome × (String → Option String) :=
  if is_root env then (ElevateOutcome.returned true, env.vars)
  else if (env.vars "PRIME_RS_ELEVATED").isSome then (ElevateOutcome.returned false, env.vars)
  else
    let vars1 :=
      match env.vars "HOME" with
      | some home => setVar env.vars "ORIGINAL_HOME" home
      | none => env.vars
    let vars2 := setVar vars1 "PRIME_RS_ELEVATED" "1"
    if env.execOk then
      (ElevateOutcome.replaced "pkexec" (env.current_exe :: env.args), vars2)
    else (ElevateOutcome.returned false, vars2)

/-! ### Concrete fixtures used by witnesses and counterexamples -/

/-- A file system where every EPP write succeeds. -/
def fsOk : FsEnv := ⟨true, some ["cpu0", "cpu1"], fun _ => true, fun _ => true⟩

/-- Hardware that accepts every adapter call. -/
def envOk : HwEnv := ⟨fsOk, true, true, 0⟩

/-- Hardware where only the GPU restore call fails. -/
def envGpuRestoreFail : HwEnv := ⟨fsOk, true, false, 0⟩

/-- An enabled CPU section as in the repo's own tests. -/
def cpuOn : CpuTune := ⟨true, "performance", "balance_performance"⟩

/-- A disabled CPU section. -/
def cpuOff : CpuTune := ⟨false, "performance", "balance_performance"⟩

/-- An enabled GPU section requesting the maximum power limit. -/
def gpuOn : GpuTune := ⟨true, none, none, "/usr/share/vulkan/icd.d/nvidia_icd.json", true, none⟩

/-- A disabled GPU section. -/
def gpuOff : GpuTune := ⟨false, none, none, "/usr/share/vulkan/icd.d/nvidia_icd.json", false, none⟩

/-- A disabled sys section (the `SysTune` defaults of `config.rs`). -/
def sysOff : SysTune := ⟨false, 4, 0, false, 10⟩

/-- A request with CPU and GPU tuning enabled. -/
def cfgCpuGpu : TuningConfig := ⟨cpuOn, gpuOn, sysOff⟩

/-- A request with every section disabled. -/
def cfgAllOff : TuningConfig := ⟨cpuOff, gpuOff, sysOff⟩

/-- The freshly-constructed daemon state (`DaemonState::new`). -/
def state0 : DaemonState := ⟨none, ∅, none, none⟩

/-- An idle state after a full activation cycle: GPU handle open, baselines
recorded, `active_pids` empty. -/
def stateIdleTuned : DaemonState := ⟨some (), ∅, some 100000, some "balance_performance"⟩

/-! ### Helper lemmas -/

/-- Every `set_epp` call returns `Ok(())` (`ryzen.rs` has no `Err` path). -/
theorem set_epp_isOk (env : FsEnv) (mode : String) :
    (set_epp env mode).result = Except.ok () := by
  unfold set_epp
  cases EppProfile.fromString mode <;> simp
  cases env.cpuDirExists <;> simp
  cases env.readDirEntries <;> simp

/-- `apply_cpu_tuning` never fails. -/
theorem apply_cpu_tuning_isOk (env : HwEnv) (s : DaemonState) (c : CpuTune) :
    (s.apply_cpu_tuning env c).result = Except.ok () := by
  unfold DaemonState.apply_cpu_tuning
  cases c.enabled <;> simp [set_epp_isOk]

/-- `apply_cpu_tuning` touches only `baseline_epp`. -/
theorem apply_cpu_tuning_frame (env : HwEnv) (s : DaemonState) (c : CpuTune) :
    (s.apply_cpu_tuning env c).state.gpu = s.gpu
    ∧ (s.apply_cpu_tuning env c).state.active_pids = s.active_pids
    ∧ (s.apply_cpu_tuning env c).state.baseline_power_limit = s.baseline_power_limit := by
  unfold DaemonState.apply_cpu_tuning
  cases c.enabled <;> cases h : s.baseline_epp.isNone <;> simp [h]

/-- `apply_gpu_tuning` does not change the daemon state. -/
theorem apply_gpu_tuning_state (env : HwEnv) (s : DaemonState) (g : GpuTune) :
    (s.apply_gpu_tuning env g).state = s := by
  unfold DaemonState.apply_gpu_tuning
  cases g.enabled <;> cases s.gpu <;> simp

/-- The GPU step's result depends only on the state's `gpu` field. -/
theorem apply_gpu_tuning_result_congr (env : HwEnv) (s t : DaemonState) (g : GpuTune)
    (h : t.gpu = s.gpu) :
    (t.apply_gpu_tuning env g).result = (s.apply_gpu_tuning env g).result := by
  unfold DaemonState.apply_gpu_tuning
  rw [h]
  cases g.enabled <;> cases s.gpu <;> simp

/-- Neither the GPU step nor the priority step reads the file system. -/
theorem gpu_prio_fs_independent (env : HwEnv) (fs2 : FsEnv) (s : DaemonState)
    (g : GpuTune) (pid : Nat) (y : SysTune) :
    (s.apply_gpu_tuning { env with fs := fs2 } g).result = (s.apply_gpu_tuning env g).result
    ∧ DaemonState.apply_process_priority { env with fs := fs2 } pid y =
        DaemonState.apply_process_priority env pid y := by
  constructor
  · unfold DaemonState.apply_gpu_tuning
    cases g.enabled <;> cases s.gpu <;> simp
  · unfold DaemonState.apply_process_priority
    rfl

/-! ### Claims -/

/-- C10: `RyzenEPPManager::set_epp` is total over its error channel — every
input returns `Ok`: an unrecognized profile name is ignored (no write
attempted), a missing CPU directory or unreadable directory listing is
skipped, per-core write failures only affect counters; hence the CPU tuning
and CPU restore steps can never themselves produce an error. -/
theorem C10_set_epp_total (fs : FsEnv) (mode : String) (env : HwEnv)
    (s : DaemonState) (c : CpuTune) :
    (set_epp fs mode).result = Except.ok ()
    ∧ (EppProfile.fromString mode = none → (set_epp fs mode).attempted = [])
    ∧ (fs.cpuDirExists = false → (set_epp fs mode).attempted = [])
    ∧ (fs.readDirEntries = none → (set_epp fs mode).attempted = [])
    ∧ (s.restore_cpu_defaults env).2 = Except.ok ()
    ∧ (s.apply_cpu_tuning env c).result = Except.ok () := by
  refine ⟨set_epp_isOk fs mode, ?_, ?_, ?_, ?_, apply_cpu_tuning_isOk env s c⟩
  · intro h; unfold set_epp; rw [h]
  · intro h; unfold set_epp
    cases EppProfile.fromString mode <;> simp [h]
  · intro h; unfold set_epp
    cases EppProfile.fromString mode <;> cases hc : fs.cpuDirExists <;> simp [h, hc]
  · unfold DaemonState.restore_cpu_defaults
    cases s.baseline_epp <;> simp [set_epp_isOk]

/-- C10 witness: the totality and skip behaviors evaluated at concrete
inputs (an invalid profile name against an absent CPU directory). -/
theorem C10_set_epp_total_witness :
    (set_epp ⟨false, none, fun _ => false, fun _ => false⟩ "not_a_profile").result = Except.ok ()
    ∧ (set_epp ⟨false, none, fun _ => false, fun _ => false⟩ "not_a_profile").attempted = []
    ∧ (stateIdleTuned.restore_cpu_defaults envOk).2 = Except.ok ()
    ∧ (stateIdleTuned.apply_cpu_tuning envOk cpuOn).result = Except.ok () := by
  have h := C10_set_epp_total ⟨false, none, fun _ => false, fun _ => false⟩
    "not_a_profile" envOk stateIdleTuned cpuOn
  exact ⟨h.1, h.2.1 (by decide), h.2.2.2.2.1, h.2.2.2.2.2⟩

/-- C8: a request with `gpu.enabled = false` never reaches the GPU adapter —
no call is made and no error is raised even with no GPU handle — and a
request with `cpu.enabled = false` never reaches the CPU EPP adapter and
does not capture `baseline_epp`: both steps return the state unchanged. -/
theorem C8_disabled_sections_skip_adapters (env : HwEnv) (s : DaemonState)
    (g : GpuTune) (c : CpuTune) :
    (g.enabled = false → s.apply_gpu_tuning env g = ⟨s, [], Except.ok ()⟩)
    ∧ (c.enabled = false → s.apply_cpu_tuning env c = ⟨s, [], Except.ok ()⟩) := by
  constructor
  · intro h; unfold DaemonState.apply_gpu_tuning; rw [h]; rfl
  · intro h; unfold DaemonState.apply_cpu_tuning; rw [h]; rfl

/-- C8 witness: the disabled GPU and CPU steps evaluated on the fresh state
(in particular the GPU handle is absent and no error results). -/
theorem C8_disabled_sections_skip_adapters_witness :
    state0.apply_gpu_tuning envOk gpuOff = ⟨state0, [], Except.ok ()⟩
    ∧ state0.apply_cpu_tuning envOk cpuOff = ⟨state0, [], Except.ok ()⟩ :=
  ⟨(C8_disabled_sections_skip_adapters envOk state0 gpuOff cpuOff).1 rfl,
   (C8_disabled_sections_skip_adapters envOk state0 gpuOff cpuOff).2 rfl⟩

/-- C6: a malformed `configBlob` makes `apply_tuning` return the structured
configuration error with no side effect at all: the daemon state is returned
unchanged, no adapter call is made, and no watchdog task is started. -/
theorem C6_parse_error_no_side_effects (env : HwEnv)
    (parse : String → Except String TuningConfig) (s : DaemonState)
    (pid : Nat) (json e : String) (hp : parse json = Except.error e) :
    apply_tuning env parse s pid json =
      (⟨s, [], Except.error ("Invalid config JSON: " ++ e)⟩, false) := by
  unfold apply_tuning
  rw [hp]

/-- C6 witness: a parser that rejects the blob as truncated, applied to the
idle tuned state. -/
theorem C6_parse_error_no_side_effects_witness :
    apply_tuning envOk (fun _ => Except.error "EOF while parsing") stateIdleTuned 100 "truncated blob" =
      (⟨stateIdleTuned, [], Except.error "Invalid config JSON: EOF while parsing"⟩, false) :=
  C6_parse_error_no_side_effects envOk (fun _ => Except.error "EOF while parsing")
    stateIdleTuned 100 "truncated blob" "EOF while parsing" rfl

/-- C7: the CPU step runs before the GPU step and is not rolled back on GPU
failure: on the fresh state (no `baseline_epp`) with CPU and GPU tuning both
enabled, the GPU step fails (no handle), the call returns an error, yet
`baseline_epp` has been captured from the request's baseline profile and the
CPU tuning profile was applied through the adapter. -/
theorem C7_cpu_applied_before_gpu_failure :
    (apply_tuning envOk (fun _ => Except.ok cfgCpuGpu) state0 55 "{}").1.result
        = Except.error "GPU tuning failed: GPU not initialized"
    ∧ (apply_tuning envOk (fun _ => Except.ok cfgCpuGpu) state0 55 "{}").1.state.baseline_epp
        = some "balance_performance"
    ∧ (apply_tuning envOk (fun _ => Except.ok cfgCpuGpu) state0 55 "{}").1.calls
        = [AdapterCall.cpuSetEpp "performance"] :=
  ⟨rfl, rfl, rfl⟩

/-- C3: `reset_tuning` attempts the GPU restore and the CPU restore (its
call list is the concatenation of both restore steps' calls, computed on the
pre-reset state, so the second is attempted regardless of the first's
outcome), unconditionally clears `active_pids`, the CPU restore itself
always succeeds, the response is success iff both restores succeeded, and —
the spec's scenario — with a GPU handle present and a failing GPU restore
the response is the aggregate error while `active_pids` is empty anyway. -/
theorem C3_reset_aggregates_and_clears (env : HwEnv) (s : DaemonState) :
    (reset_tuning env s).state.active_pids = ∅
    ∧ (reset_tuning env s).calls =
        (s.restore_gpu_defaults env).1 ++ (s.restore_cpu_defaults env).1
    ∧ (s.restore_cpu_defaults env).2 = Except.ok ()
    ∧ ((reset_tuning env s).result = Except.ok () ↔
        (s.restore_gpu_defaults env).2 = Except.ok ())
    ∧ (s.gpu.isSome = true → env.gpuRestoreOk = false →
        (reset_tuning env s).result = Except.error "Failed to fully reset tuning") := by
  unfold reset_tuning DaemonState.restore_gpu_defaults DaemonState.restore_cpu_defaults
  cases hg : s.gpu <;> cases hb : s.baseline_epp <;> cases hr : env.gpuRestoreOk <;>
    simp [resOk, set_epp_isOk]

/-- C3 witness: resetting the idle tuned state under failing GPU hardware:
the error is reported and the pid set is cleared. -/
theorem C3_reset_aggregates_and_clears_witness :
    (reset_tuning envGpuRestoreFail stateIdleTuned).state.active_pids = ∅
    ∧ (stateIdleTuned.restore_cpu_defaults envGpuRestoreFail).2 = Except.ok ()
    ∧ (reset_tuning envGpuRestoreFail stateIdleTuned).result =
        Except.error "Failed to fully reset tuning" := by
  have h := C3_reset_aggregates_and_clears envGpuRestoreFail stateIdleTuned
  exact ⟨h.1, h.2.2.1, h.2.2.2.2 rfl rfl⟩

/-- C1 counterexample: in the idle tuned state (`active_pids` already empty,
GPU handle open, baseline EPP recorded), `reset_tuning` performs two adapter
calls — not none — and (under a failing GPU restore) does not return
success; and a watchdog cleanup for a pid that was never present still takes
the restore branch and performs a full second restore pass. -/
theorem C1_counterexample_not_idempotent :
    stateIdleTuned.active_pids = ∅
    ∧ (reset_tuning envGpuRestoreFail stateIdleTuned).calls =
        [AdapterCall.gpuRestoreDefaults, AdapterCall.cpuSetEpp "balance_performance"]
    ∧ (reset_tuning envGpuRestoreFail stateIdleTuned).calls ≠ []
    ∧ (reset_tuning envGpuRestoreFail stateIdleTuned).result =
        Except.error "Failed to fully reset tuning"
    ∧ (reset_tuning envGpuRestoreFail stateIdleTuned).result ≠ Except.ok ()
    ∧ (watchdog_cleanup envOk stateIdleTuned 42).ran = true
    ∧ (watchdog_cleanup envOk stateIdleTuned 42).calls =
        [AdapterCall.gpuRestoreDefaults, AdapterCall.cpuSetEpp "balance_performance"] := by
  have hcalls : (reset_tuning envGpuRestoreFail stateIdleTuned).calls =
      [AdapterCall.gpuRestoreDefaults, AdapterCall.cpuSetEpp "balance_performance"] := rfl
  have hres : (reset_tuning envGpuRestoreFail stateIdleTuned).result =
      Except.error "Failed to fully reset tuning" := rfl
  refine ⟨rfl, hcalls, ?_, hres, ?_, rfl, rfl⟩
  · rw [hcalls]; simp
  · rw [hres]; simp

/-- C1 amended: with `active_pids` already empty, `reset_tuning` performs no
adapter calls only in the degenerate state with no GPU handle and no
recorded baseline EPP (in which case it also returns success); otherwise it
re-invokes the restores. A watchdog cleanup is guarded only by "is the set
empty after removal", never by "was the pid present": on an already-empty
set it takes the restore branch again, issuing exactly the calls a
`reset_tuning` would. -/
theorem C1_amended_cleanup_guarded_by_emptiness (env : HwEnv) (s : DaemonState)
    (pid : Nat) (h : s.active_pids = ∅) :
    ((reset_tuning env s).calls = [] ↔ (s.gpu = none ∧ s.baseline_epp = none))
    ∧ (s.gpu = none → s.baseline_epp = none →
        (reset_tuning env s).result = Except.ok ())
    ∧ (watchdog_cleanup env s pid).ran = true
    ∧ (watchdog_cleanup env s pid).calls = (reset_tuning env s).calls := by
  unfold reset_tuning watchdog_cleanup DaemonState.remove_active_pid
    DaemonState.restore_gpu_defaults DaemonState.restore_cpu_defaults
  cases hg : s.gpu <;> cases hb : s.baseline_epp <;>
    simp [h, resOk, set_epp_isOk, Finset.erase_empty]

/-- C1 amended witness: on the fresh daemon state (no handle, no baseline),
a repeated reset is indeed a successful no-op, while the cleanup still takes
its restore branch (vacuously issuing no calls). -/
theorem C1_amended_cleanup_guarded_by_emptiness_witness :
    ((reset_tuning envOk state0).calls = [] ↔ (state0.gpu = none ∧ state0.baseline_epp = none))
    ∧ (reset_tuning envOk state0).result = Except.ok ()
    ∧ (watchdog_cleanup envOk state0 42).ran = true
    ∧ (watchdog_cleanup envOk state0 42).calls = (reset_tuning envOk state0).calls := by
  have h := C1_amended_cleanup_guarded_by_emptiness envOk state0 42 rfl
  exact ⟨h.1, h.2.1 rfl rfl, h.2.2.1, h.2.2.2⟩

/-- On success, `apply_tuning` records the pid (idempotent `HashSet` insert)
and starts a watchdog. -/
theorem apply_tuning_ok_shape (env : HwEnv) (parse : String → Except String TuningConfig)
    (s : DaemonState) (pid : Nat) (json : String) (cfg : TuningConfig)
    (hp : parse json = Except.ok cfg)
    (hok : (apply_tuning env parse s pid json).1.result = Except.ok ()) :
    (apply_tuning env parse s pid json).1.state.active_pids = insert pid s.active_pids
    ∧ (apply_tuning env parse s pid json).2 = true := by
  simp only [apply_tuning, hp] at hok ⊢
  cases hg : ((s.apply_cpu_tuning env cfg.cpu).state.apply_gpu_tuning env cfg.gpu).result with
  | error e => simp [hg] at hok
  | ok u =>
    simp only [hg] at hok ⊢
    cases hs : (DaemonState.apply_process_priority env pid cfg.sys).2 with
    | error e => simp [hs] at hok
    | ok v =>
      simp only [hs]
      refine ⟨?_, by trivial⟩
      simp [DaemonState.add_active_pid, apply_gpu_tuning_state,
        (apply_cpu_tuning_frame env s cfg.cpu).2.1]

/-- On failure, `apply_tuning` leaves `active_pids` untouched and starts no
watchdog. -/
theorem apply_tuning_err_shape (env : HwEnv) (parse : String → Except String TuningConfig)
    (s : DaemonState) (pid : Nat) (json : String) (cfg : TuningConfig) (e : String)
    (hp : parse json = Except.ok cfg)
    (he : (apply_tuning env parse s pid json).1.result = Except.error e) :
    (apply_tuning env parse s pid json).1.state.active_pids = s.active_pids
    ∧ (apply_tuning env parse s pid json).2 = false := by
  simp only [apply_tuning, hp] at he ⊢
  cases hg : ((s.apply_cpu_tuning env cfg.cpu).state.apply_gpu_tuning env cfg.gpu).result with
  | error e2 =>
    simp only [hg]
    refine ⟨?_, by trivial⟩
    simp [apply_gpu_tuning_state, (apply_cpu_tuning_frame env s cfg.cpu).2.1]
  | ok u =>
    simp only [hg] at he ⊢
    cases hs : (DaemonState.apply_process_priority env pid cfg.sys).2 with
    | error e2 =>
      simp only [hs]
      refine ⟨?_, by trivial⟩
      simp [apply_gpu_tuning_state, (apply_cpu_tuning_frame env s cfg.cpu).2.1]
    | ok v => simp [hs] at he

/-- C2: the watchdog's death cleanup is one atomic critical section (one
Lean transition, as the single lock acquisition in the code): it removes the
pid, and the restore branch runs iff `active_pids` is empty immediately
after that removal; when it does not run, no adapter is called; in
particular any other pid still present — e.g. one registered by an
`apply_tuning` that committed before the cleanup — prevents the restore. -/
theorem C2_cleanup_restore_iff_empty_after_removal (env : HwEnv) (s : DaemonState)
    (pid : Nat) :
    ((watchdog_cleanup env s pid).ran = true ↔ s.active_pids.erase pid = ∅)
    ∧ (watchdog_cleanup env s pid).state.active_pids = s.active_pids.erase pid
    ∧ ((watchdog_cleanup env s pid).ran = false → (watchdog_cleanup env s pid).calls = [])
    ∧ (∀ c, c ∈ s.active_pids → c ≠ pid →
        (watchdog_cleanup env s pid).ran = false ∧ (watchdog_cleanup env s pid).calls = [])
    ∧ (∀ parse json cfg c, parse json = Except.ok cfg →
        (apply_tuning env parse s c json).1.result = Except.ok () → c ≠ pid →
        (watchdog_cleanup env (apply_tuning env parse s c json).1.state pid).ran = false) := by
  have hmain : ∀ t : DaemonState,
      ((watchdog_cleanup env t pid).ran = true ↔ t.active_pids.erase pid = ∅)
      ∧ (watchdog_cleanup env t pid).state.active_pids = t.active_pids.erase pid
      ∧ ((watchdog_cleanup env t pid).ran = false →
          (watchdog_cleanup env t pid).calls = []) := by
    intro t
    unfold watchdog_cleanup DaemonState.remove_active_pid
    by_cases he : t.active_pids.erase pid = ∅ <;> simp [he]
  refine ⟨(hmain s).1, (hmain s).2.1, (hmain s).2.2, ?_, ?_⟩
  · intro c hc hne
    have hne2 : s.active_pids.erase pid ≠ ∅ :=
      Finset.ne_empty_of_mem (Finset.mem_erase.mpr ⟨hne, hc⟩)
    have hran : (watchdog_cleanup env s pid).ran = false := by
      cases hr : (watchdog_cleanup env s pid).ran with
      | false => rfl
      | true => exact absurd ((hmain s).1.mp hr) hne2
    exact ⟨hran, (hmain s).2.2 hran⟩
  · intro parse json cfg c hp hok hne
    have hpids := (apply_tuning_ok_shape env parse s c json cfg hp hok).1
    have hmem : c ∈ (apply_tuning env parse s c json).1.state.active_pids := by
      rw [hpids]; exact Finset.mem_insert_self c s.active_pids
    have hne2 : (apply_tuning env parse s c json).1.state.active_pids.erase pid ≠ ∅ :=
      Finset.ne_empty_of_mem (Finset.mem_erase.mpr ⟨hne, hmem⟩)
    cases hr : (watchdog_cleanup env (apply_tuning env parse s c json).1.state pid).ran with
    | false => rfl
    | true => exact absurd ((hmain _).1.mp hr) hne2

/-- C2 witness: cleanup of pid 42 while pid 7 is active does nothing; and a
pid 7 registered by a successful `apply_tuning` on the fresh state likewise
prevents the restore branch of a cleanup for pid 42. -/
theorem C2_cleanup_restore_iff_empty_after_removal_witness :
    ((watchdog_cleanup envOk ⟨none, {7}, none, none⟩ 42).ran = true ↔
      (DaemonState.active_pids ⟨none, {7}, none, none⟩).erase 42 = ∅)
    ∧ (watchdog_cleanup envOk ⟨none, {7}, none, none⟩ 42).ran = false
    ∧ (watchdog_cleanup envOk ⟨none, {7}, none, none⟩ 42).calls = []
    ∧ (watchdog_cleanup envOk
        (apply_tuning envOk (fun _ => Except.ok cfgAllOff) state0 7 "{}").1.state 42).ran
        = false := by
  have h := C2_cleanup_restore_iff_empty_after_removal envOk ⟨none, {7}, none, none⟩ 42
  have hc := h.2.2.2.1 7 (by decide) (by decide)
  have h2 := C2_cleanup_restore_iff_empty_after_removal envOk state0 42
  exact ⟨h.1, hc.1, hc.2,
    h2.2.2.2.2 (fun _ => Except.ok cfgAllOff) "{}" cfgAllOff 7 rfl rfl (by decide)⟩

/-- The CPU step's outcome does not change when the file system behaves
differently (its `set_epp` call returns `Ok` either way). -/
theorem apply_cpu_tuning_fs (fs1 fs2 : FsEnv) (gok rok : Bool) (pret : Int)
    (s : DaemonState) (c : CpuTune) :
    s.apply_cpu_tuning ⟨fs1, gok, rok, pret⟩ c = s.apply_cpu_tuning ⟨fs2, gok, rok, pret⟩ c := by
  unfold DaemonState.apply_cpu_tuning
  cases c.enabled <;> simp [set_epp_isOk]

/-- The GPU step never reads the file system. -/
theorem apply_gpu_tuning_fs (fs1 fs2 : FsEnv) (gok rok : Bool) (pret : Int)
    (s : DaemonState) (g : GpuTune) :
    s.apply_gpu_tuning ⟨fs1, gok, rok, pret⟩ g = s.apply_gpu_tuning ⟨fs2, gok, rok, pret⟩ g := by
  unfold DaemonState.apply_gpu_tuning
  cases g.enabled <;> cases s.gpu <;> simp

/-- The priority step never reads the file system. -/
theorem apply_process_priority_fs (fs1 fs2 : FsEnv) (gok rok : Bool) (pret : Int)
    (pid : Nat) (y : SysTune) :
    DaemonState.apply_process_priority ⟨fs1, gok, rok, pret⟩ pid y =
      DaemonState.apply_process_priority ⟨fs2, gok, rok, pret⟩ pid y := rfl

/-- The whole `apply_tuning` handler is insensitive to the file system the
CPU EPP writes land on: per-core failures are invisible to the caller. -/
theorem apply_tuning_fs (env : HwEnv) (fs2 : FsEnv)
    (parse : String → Except String TuningConfig) (s : DaemonState)
    (pid : Nat) (json : String) :
    apply_tuning { env with fs := fs2 } parse s pid json =
      apply_tuning env parse s pid json := by
  obtain ⟨fs, gok, rok, pret⟩ := env
  unfold apply_tuning
  cases hpj : parse json with
  | error e => rfl
  | ok cfg =>
    simp only
    rw [apply_cpu_tuning_fs fs2 fs, apply_gpu_tuning_fs fs2 fs,
      apply_process_priority_fs fs2 fs]

/-- C4: with a well-formed config, `apply_tuning` fails iff the GPU step or
the process-priority step fails (each a no-op success when its section is
disabled); the CPU step can never fail the call — the handler's entire
outcome is independent of the file system the EPP writes go to; the pid is
recorded (an idempotent set insert) and a watchdog started exactly when the
call succeeds, and a failed call leaves `active_pids` untouched. -/
theorem C4_apply_error_iff_gpu_or_priority (env : HwEnv)
    (parse : String → Except String TuningConfig) (s : DaemonState)
    (pid : Nat) (json : String) (cfg : TuningConfig)
    (hp : parse json = Except.ok cfg) :
    ((apply_tuning env parse s pid json).1.result = Except.ok () ↔
      ((s.apply_gpu_tuning env cfg.gpu).result = Except.ok ()
        ∧ (DaemonState.apply_process_priority env pid cfg.sys).2 = Except.ok ()))
    ∧ ((apply_tuning env parse s pid json).1.result = Except.ok () →
        ((apply_tuning env parse s pid json).1.state.active_pids = insert pid s.active_pids
          ∧ (apply_tuning env parse s pid json).2 = true))
    ∧ (∀ e, (apply_tuning env parse s pid json).1.result = Except.error e →
        ((apply_tuning env parse s pid json).1.state.active_pids = s.active_pids
          ∧ (apply_tuning env parse s pid json).2 = false))
    ∧ (∀ fs2, apply_tuning { env with fs := fs2 } parse s pid json =
        apply_tuning env parse s pid json) := by
  refine ⟨?_, fun hok => apply_tuning_ok_shape env parse s pid json cfg hp hok,
    fun e he => apply_tuning_err_shape env parse s pid json cfg e hp he,
    fun fs2 => apply_tuning_fs env fs2 parse s pid json⟩
  have hgc := apply_gpu_tuning_result_congr env s ((s.apply_cpu_tuning env cfg.cpu).state)
    cfg.gpu (apply_cpu_tuning_frame env s cfg.cpu).1
  simp only [apply_tuning, hp]
  cases hg : ((s.apply_cpu_tuning env cfg.cpu).state.apply_gpu_tuning env cfg.gpu).result with
  | error e =>
    rw [hg] at hgc
    cases hs : (DaemonState.apply_process_priority env pid cfg.sys).2 <;>
      simp [hg, ← hgc, hs]
  | ok u =>
    rw [hg] at hgc
    cases hs : (DaemonState.apply_process_priority env pid cfg.sys).2 <;>
      simp [hg, ← hgc, hs]

/-- C4 witness: a GPU-enabled request on the fresh state (no GPU handle)
fails and records nothing; a fully disabled request succeeds and records the
pid; the outcome is unchanged under a file system where every write fails. -/
theorem C4_apply_error_iff_gpu_or_priority_witness :
    ((apply_tuning envOk (fun _ => Except.ok cfgCpuGpu) state0 55 "{}").1.result = Except.ok () ↔
      ((state0.apply_gpu_tuning envOk cfgCpuGpu.gpu).result = Except.ok ()
        ∧ (DaemonState.apply_process_priority envOk 55 cfgCpuGpu.sys).2 = Except.ok ()))
    ∧ (apply_tuning envOk (fun _ => Except.ok cfgCpuGpu) state0 55 "{}").1.state.active_pids
        = state0.active_pids
    ∧ (apply_tuning envOk (fun _ => Except.ok cfgCpuGpu) state0 55 "{}").2 = false
    ∧ (apply_tuning envOk (fun _ => Except.ok cfgAllOff) state0 7 "{}").1.state.active_pids
        = insert 7 state0.active_pids
    ∧ apply_tuning { envOk with fs := ⟨true, some ["cpu0"], fun _ => true, fun _ => false⟩ }
        (fun _ => Except.ok cfgCpuGpu) state0 55 "{}"
        = apply_tuning envOk (fun _ => Except.ok cfgCpuGpu) state0 55 "{}" := by
  have h := C4_apply_error_iff_gpu_or_priority envOk (fun _ => Except.ok cfgCpuGpu)
    state0 55 "{}" cfgCpuGpu rfl
  have h2 := C4_apply_error_iff_gpu_or_priority envOk (fun _ => Except.ok cfgAllOff)
    state0 7 "{}" cfgAllOff rfl
  have herr := h.2.2.1 "GPU tuning failed: GPU not initialized" rfl
  exact ⟨h.1, herr.1, herr.2, (h2.2.1 rfl).1,
    h.2.2.2 ⟨true, some ["cpu0"], fun _ => true, fun _ => false⟩⟩

/-- C5 counterexample: a concrete `ApplyTuning` wire call that the service
accepts (it returns success) while carrying no protocol version byte at
all — the zbus method signature has no version parameter — so it is false
that every RPC request carries a protocol version byte whose major version
the service checks. -/
theorem C5_counterexample_versionless_accept :
    ServiceCall.wireVersion (ServiceCall.applyTuning 7 "{}") = none
    ∧ (handleCall envOk (fun _ => Except.ok cfgAllOff) state0
        (ServiceCall.applyTuning 7 "{}")).1.result = Except.ok ()
    ∧ (handleCall envOk (fun _ => Except.ok cfgAllOff) state0
        (ServiceCall.applyTuning 7 "{}")).1.state.active_pids = {7} :=
  ⟨rfl, rfl, rfl⟩

/-- C5 amended: a protocol version byte exists only on the unused `Request`
wrapper of `ipc/protocol.rs`, whose constructor always stamps the single
known version 1; the wire calls of the zbus service carry no version and
the service performs no version-based rejection — its dispatch is exactly
the versionless handlers. -/
theorem C5_amended_version_byte_unchecked :
    (∀ c : Command, (Request.new c).version = Request.CURRENT_VERSION)
    ∧ Request.CURRENT_VERSION = 1
    ∧ (∀ call : ServiceCall, call.wireVersion = none)
    ∧ (∀ env parse s pid json,
        handleCall env parse s (ServiceCall.applyTuning pid json) =
          apply_tuning env parse s pid json)
    ∧ (∀ env parse s,
        handleCall env parse s ServiceCall.resetTuning = (reset_tuning env s, false)) :=
  ⟨fun _ => rfl, rfl, fun _ => rfl, fun _ _ _ _ _ => rfl, fun _ _ _ => rfl⟩

/-- C9: `Privilege::try_elevate` returns true immediately when the effective
uid is 0; returns false without re-exec when the `PRIME_RS_ELEVATED` marker
is in the environment; otherwise it saves `HOME` into `ORIGINAL_HOME`, sets
the marker, and replaces the process image with `pkexec` plus the current
binary and identical arguments — or returns false when the exec fails to
start. -/
theorem C9_try_elevate_contract (env : ProcEnv) :
    (env.euid = 0 → try_elevate env = (ElevateOutcome.returned true, env.vars))
    ∧ (env.euid ≠ 0 → (env.vars "PRIME_RS_ELEVATED").isSome = true →
        try_elevate env = (ElevateOutcome.returned false, env.vars))
    ∧ (env.euid ≠ 0 → env.vars "PRIME_RS_ELEVATED" = none →
        ((try_elevate env).2 "PRIME_RS_ELEVATED" = some "1"
          ∧ (∀ home, env.vars "HOME" = some home →
              (try_elevate env).2 "ORIGINAL_HOME" = some home)
          ∧ (env.execOk = true →
              (try_elevate env).1 =
                ElevateOutcome.replaced "pkexec" (env.current_exe :: env.args))
          ∧ (env.execOk = false → (try_elevate env).1 = ElevateOutcome.returned false))) := by
  refine ⟨?_, ?_, ?_⟩
  · intro h
    simp [try_elevate, is_root, h]
  · intro h1 h2
    simp [try_elevate, is_root, h1, h2]
  · intro h1 h2
    have hmark : (env.vars "PRIME_RS_ELEVATED").isSome = false := by
      rw [h2]; rfl
    refine ⟨?_, ?_, ?_, ?_⟩
    · cases hh : env.vars "HOME" <;> cases hex : env.execOk <;>
        simp [try_elevate, is_root, h1, hmark, hh, hex, setVar]
    · intro home hh
      cases hex : env.execOk <;>
        simp [try_elevate, is_root, h1, hmark, hh, hex, setVar]
    · intro hex
      cases hh : env.vars "HOME" <;>
        simp [try_elevate, is_root, h1, hmark, hh, hex, setVar]
    · intro hex
      cases hh : env.vars "HOME" <;>
        simp [try_elevate, is_root, h1, hmark, hh, hex, setVar]

/-- C9 witness: an unprivileged process (euid 1000) with `HOME` set, no
marker, and a failing `pkexec` start: `try_elevate` returns false with the
marker set and the original home preserved. -/
theorem C9_try_elevate_contract_witness :
    (try_elevate ⟨1000, fun k => if k = "HOME" then some "/home/user" else none,
        "/usr/bin/nvprime", ["game.exe"], false⟩).2 "PRIME_RS_ELEVATED" = some "1"
    ∧ (try_elevate ⟨1000, fun k => if k = "HOME" then some "/home/user" else none,
        "/usr/bin/nvprime", ["game.exe"], false⟩).2 "ORIGINAL_HOME" = some "/home/user"
    ∧ (try_elevate ⟨1000, fun k => if k = "HOME" then some "/home/user" else none,
        "/usr/bin/nvprime", ["game.exe"], false⟩).1 = ElevateOutcome.returned false := by
  have h := (C9_try_elevate_contract ⟨1000,
    fun k => if k = "HOME" then some "/home/user" else none,
    "/usr/bin/nvprime", ["game.exe"], false⟩).2.2 (by decide) (by simp)
  exact ⟨h.1, h.2.1 "/home/user" (by simp), h.2.2.2 rfl⟩

end NvPrime
